import Mathlib

/-! Verification of the portfolio backend (src/main.py and src/schemas.py):
a FastAPI app exposing a static project catalog, a contact-form submission
handler backed by a document store, and a diagnostic endpoint.  The handlers
are embedded shallowly: each handler becomes a total Lean function of its
inputs (payload, storage outcomes, environment-variable presence), and the
JSON responses become Lean structures. -/

namespace Portfolio

/-- JSON-like values appearing in a request payload dict.  The `datetime`
constructor models an ISO-8601 timestamp string that the validation layer
has parsed into a datetime value (represented abstractly as a `Nat`). -/
inductive JsonValue where
  | str (s : String)
  | num (n : Int)
  | boolean (b : Bool)
  | list (xs : List JsonValue)
  | null
  | datetime (t : Nat)

/-- A JSON object payload, as a key-value association list (dict keys are
unique in Python; lookup takes the first occurrence). -/
abbrev Payload : Type := List (String × JsonValue)

/-- The ContactMessage record of src/schemas.py (lines 44-54): name, email,
optional subject, message, optional tags, optional received_at timestamp. -/
structure ContactMessage where
  name : String
  email : String
  subject : Option String
  message : String
  tags : Option (List String)
  received_at : Option Nat
deriving DecidableEq, Repr

/-- One entry of the structured validation-error list that pydantic reports
(`e.errors()` in src/main.py line 77): the field location and a message. -/
structure FieldError where
  loc : String
  msg : String
deriving DecidableEq, Repr

/-- Modelled from the spec: the `EmailStr` validator of the external
email-validator library (schemas.py line 50 declares `email: EmailStr`; the
library itself is not part of this repository).  The spec asks only for
syntactic email-format validation, modelled here as: exactly one at-sign,
a nonempty local part, and a nonempty domain containing a dot and not
starting or ending with one. -/
def isValidEmail (s : String) : Bool :=
  let cs := s.data
  let lp := cs.takeWhile (fun c => c != '@')
  let dom := (cs.dropWhile (fun c => c != '@')).drop 1
  cs.count '@' == 1 && !lp.isEmpty && !dom.isEmpty &&
  dom.contains '.' && dom.head? != some '.' && dom.getLast? != some '.'

/-- Validation of the `name` field: required string, 1 to 120 characters
(schemas.py line 49). -/
def checkName (p : Payload) : Except FieldError String :=
  match List.lookup "name" p with
  | some (JsonValue.str s) =>
      if s.length < 1 then
        Except.error { loc := "name", msg := "String should have at least 1 character" }
      else if s.length > 120 then
        Except.error { loc := "name", msg := "String should have at most 120 characters" }
      else Except.ok s
  | some _ => Except.error { loc := "name", msg := "Input should be a valid string" }
  | none => Except.error { loc := "name", msg := "Field required" }

/-- Validation of the `email` field: required string in email format
(schemas.py line 50). -/
def checkEmail (p : Payload) : Except FieldError String :=
  match List.lookup "email" p with
  | some (JsonValue.str s) =>
      if isValidEmail s then Except.ok s
      else Except.error { loc := "email", msg := "value is not a valid email address" }
  | some _ => Except.error { loc := "email", msg := "Input should be a valid string" }
  | none => Except.error { loc := "email", msg := "Field required" }

/-- Validation of the optional `subject` field: at most 200 characters when
present (schemas.py line 51). -/
def checkSubject (p : Payload) : Except FieldError (Option String) :=
  match List.lookup "subject" p with
  | none => Except.ok none
  | some JsonValue.null => Except.ok none
  | some (JsonValue.str s) =>
      if s.length > 200 then
        Except.error { loc := "subject", msg := "String should have at most 200 characters" }
      else Except.ok (some s)
  | some _ => Except.error { loc := "subject", msg := "Input should be a valid string" }

/-- Validation of the `message` field: required string, 5 to 5000 characters
(schemas.py line 52). -/
def checkMessage (p : Payload) : Except FieldError String :=
  match List.lookup "message" p with
  | some (JsonValue.str s) =>
      if s.length < 5 then
        Except.error { loc := "message", msg := "String should have at least 5 characters" }
      else if s.length > 5000 then
        Except.error { loc := "message", msg := "String should have at most 5000 characters" }
      else Except.ok s
  | some _ => Except.error { loc := "message", msg := "Input should be a valid string" }
  | none => Except.error { loc := "message", msg := "Field required" }

/-- Coerces a JSON list to a list of strings, failing on a non-string
element. -/
def allStrings : List JsonValue → Option (List String)
  | [] => some []
  | JsonValue.str s :: rest =>
      match allStrings rest with
      | some ss => some (s :: ss)
      | none => none
  | _ :: _ => none

/-- Validation of the optional `tags` field: a list of strings when present
(schemas.py line 53). -/
def checkTags (p : Payload) : Except FieldError (Option (List String)) :=
  match List.lookup "tags" p with
  | none => Except.ok none
  | some JsonValue.null => Except.ok none
  | some (JsonValue.list xs) =>
      match allStrings xs with
      | some ss => Except.ok (some ss)
      | none => Except.error { loc := "tags", msg := "Input should be a valid string" }
  | some _ => Except.error { loc := "tags", msg := "Input should be a valid list" }

/-- Validation of the optional `received_at` field: a datetime when present
(schemas.py line 54). -/
def checkReceivedAt (p : Payload) : Except FieldError (Option Nat) :=
  match List.lookup "received_at" p with
  | none => Except.ok none
  | some JsonValue.null => Except.ok none
  | some (JsonValue.datetime t) => Except.ok (some t)
  | some _ => Except.error { loc := "received_at", msg := "Input should be a valid datetime" }

/-- The error list contributed by one field check. -/
def errsOf {α : Type} : Except FieldError α → List FieldError
  | Except.ok _ => []
  | Except.error e => [e]

/-- Embeds `ContactMessage(**payload)` (src/main.py line 75): pydantic
validates every declared field of the schema in schemas.py lines 44-54,
collects the per-field errors, and ignores extra keyword arguments that are
not schema fields (the pydantic default for unknown keys).  On success the
constructed model holds exactly the schema-defined fields. -/
def contactMessageValidate (p : Payload) : Except (List FieldError) ContactMessage :=
  match checkName p, checkEmail p, checkSubject p, checkMessage p,
        checkTags p, checkReceivedAt p with
  | Except.ok n, Except.ok e, Except.ok s, Except.ok m, Except.ok t, Except.ok r =>
      Except.ok { name := n, email := e, subject := s, message := m,
                  tags := t, received_at := r }
  | rn, re, rs, rm, rt, rr =>
      Except.error (errsOf rn ++ errsOf re ++ errsOf rs ++ errsOf rm ++
                    errsOf rt ++ errsOf rr)

/-- The detail carried by an HTTPException raised in src/main.py: either a
plain string or the structured list of field errors. -/
inductive ErrorDetail where
  | str (s : String)
  | fieldErrors (errs : List FieldError)
deriving DecidableEq, Repr

/-- The outcome of POST /api/contact.  `ok i` models the success JSON object
with fields status = "ok" and id = i (src/main.py line 84); `httpError`
models a raised HTTPException with its status code and detail. -/
inductive ContactResult where
  | ok (id : String)
  | httpError (status : Nat) (detail : ErrorDetail)
deriving DecidableEq, Repr

/-- The storage configuration of the app at startup (src/main.py lines
26-32): either the optional import failed, leaving `ContactMessage` and
`create_document` as None, or it succeeded.  Modelled from the spec: the
`create_document` function lives in database.py, which is not under src/;
per the spec it inserts the given document into the named logical collection
of the external document store and returns the newly assigned storage
identifier, raising on failure — modelled as an arbitrary function into
`Except` (error carries the exception message `str(e)`). -/
inductive DbConfig where
  | unconfigured
  | configured (create_document : String → ContactMessage → Except String String)

/-- Embeds `submit_contact` (src/main.py lines 68-86).  `now` is the value
of `datetime.now(timezone.utc)` at handling time.  Besides the response it
returns the list of storage insert invocations (collection name and
document) the handler performed, so that the absence of a write on failure
paths is expressible. -/
def submit_contact (cfg : DbConfig) (now : Nat) (payload : Payload) :
    ContactResult × List (String × ContactMessage) :=
  match cfg with
  | DbConfig.unconfigured =>
      (ContactResult.httpError 500 (ErrorDetail.str "Database not configured"), [])
  | DbConfig.configured create_document =>
      match contactMessageValidate payload with
      | Except.error errs =>
          (ContactResult.httpError 422 (ErrorDetail.fieldErrors errs), [])
      | Except.ok data0 =>
          let data := { data0 with received_at := some now }
          match create_document "contactmessage" data with
          | Except.ok inserted_id =>
              (ContactResult.ok inserted_id, [("contactmessage", data)])
          | Except.error e =>
              (ContactResult.httpError 500 (ErrorDetail.str e), [("contactmessage", data)])

/-- One record of the static project catalog (src/main.py lines 37-65). -/
structure ProjectRecord where
  id : String
  title : String
  description : String
  tags : List String
  link : String
  github : String
  image : String
deriving DecidableEq, Repr

/-- The response of GET /api/projects: the object keyed `projects`. -/
structure ProjectsResponse where
  projects : List ProjectRecord
deriving DecidableEq, Repr

/-- Embeds `list_projects` (src/main.py lines 34-66): a static in-memory
list, independent of any request or state. -/
def list_projects : ProjectsResponse :=
  { projects :=
    [ { id := "p1",
        title := "Interactive Data Dashboard",
        description := "A responsive dashboard with real-time charts and dark mode.",
        tags := ["React", "Tailwind", "Charts"],
        link := "https://example.com/dashboard",
        github := "https://github.com/example/dashboard",
        image := "https://images.unsplash.com/photo-1556157382-97eda2d62296?q=80&w=1200&auto=format&fit=crop" },
      { id := "p2",
        title := "Creative Portfolio Site",
        description := "Smooth scroll sections, parallax hero, and animated cards.",
        tags := ["React", "UX", "Animation"],
        link := "https://example.com/portfolio",
        github := "https://github.com/example/portfolio",
        image := "https://images.unsplash.com/photo-1518779578993-ec3579fee39f?q=80&w=1200&auto=format&fit=crop" },
      { id := "p3",
        title := "API Microservice Boilerplate",
        description := "Production-ready FastAPI service with auth and testing.",
        tags := ["FastAPI", "Python", "DevOps"],
        link := "https://example.com/api",
        github := "https://github.com/example/fastapi",
        image := "https://images.unsplash.com/photo-1518779578993-ec3579fee39f?q=80&w=1200&auto=format&fit=crop" } ] }

/-- A live handle to the document store as seen by the diagnostic handler:
its optional `name` attribute (`hasattr(_db, 'name')` in src/main.py line
108) and the outcome of calling `list_collection_names()` on it (line 113),
which either returns the collection names or raises. -/
structure DbHandle where
  name : Option String
  list_collection_names : Except String (List String)

/-- The outcome of `from database import db as _db` inside the diagnostic
handler (src/main.py line 103): success (with the module-level `db`, which
may itself be None), an ImportError, or some other exception with its
message. -/
inductive ImportDbResult where
  | ok (db : Option DbHandle)
  | importErr
  | otherErr (msg : String)

/-- The JSON report returned by GET /test (src/main.py lines 92-99).  The
two marker fields start out as Python None, modelled as `Option.none`. -/
structure DiagnosticReport where
  backend : String
  database : String
  database_url : Option String
  database_name : Option String
  connection_status : String
  collections : List String
deriving DecidableEq, Repr

/-- Embeds `test_database` (src/main.py lines 89-131).  `urlSet` and
`nameSet` are the presence of the DATABASE_URL and DATABASE_NAME
environment variables.  The handler is total: every probe failure is
rendered into the report rather than raised, so the endpoint always
produces a 200 response with this body. -/
def test_database (imp : ImportDbResult) (urlSet nameSet : Bool) : DiagnosticReport :=
  let r0 : DiagnosticReport :=
    { backend := "✅ Running",
      database := "❌ Not Available",
      database_url := none,
      database_name := none,
      connection_status := "Not Connected",
      collections := [] }
  let r1 :=
    match imp with
    | ImportDbResult.ok (some db) =>
        let r :=
          { r0 with
            database := "✅ Available",
            database_url := some "✅ Configured",
            database_name := some (match db.name with
              | some nm => nm
              | none => "✅ Connected"),
            connection_status := "Connected" }
        match db.list_collection_names with
        | Except.ok cols =>
            { r with collections := cols.take 10,
                     database := "✅ Connected & Working" }
        | Except.error e =>
            { r with database := "⚠️  Connected but Error: " ++ e.take 50 }
    | ImportDbResult.ok none =>
        { r0 with database := "⚠️  Available but not initialized" }
    | ImportDbResult.importErr =>
        { r0 with database := "❌ Database module not found (run enable-database first)" }
    | ImportDbResult.otherErr e =>
        { r0 with database := "❌ Error: " ++ e.take 50 }
  { r1 with
    database_url := some (if urlSet then "✅ Set" else "❌ Not Set"),
    database_name := some (if nameSet then "✅ Set" else "❌ Not Set") }

/-- The payload shape used by the message-length property: valid name and
email, and the given message text. -/
def stdPayload (m : String) : Payload :=
  [("name", JsonValue.str "A"), ("email", JsonValue.str "a@example.com"),
   ("message", JsonValue.str m)]

/-- Validation succeeds exactly when all six field checks succeed. -/
theorem validate_isOk (p : Payload) :
    (contactMessageValidate p).isOk =
      ((checkName p).isOk && (checkEmail p).isOk && (checkSubject p).isOk &&
       (checkMessage p).isOk && (checkTags p).isOk && (checkReceivedAt p).isOk) := by
  unfold contactMessageValidate
  cases checkName p <;> cases checkEmail p <;> cases checkSubject p <;>
    cases checkMessage p <;> cases checkTags p <;> cases checkReceivedAt p <;> rfl

/-- C8: GET /api/projects returns a fixed list of exactly 3 project
records, with ids p1, p2, p3 in that order, each record having non-empty
id, title and description; the handler is a constant with no error path
and no side effects. -/
theorem spec_c8_projects_static :
    list_projects.projects.length = 3 ∧
    list_projects.projects.map ProjectRecord.id = ["p1", "p2", "p3"] ∧
    list_projects.projects.all
      (fun p => !p.id.isEmpty && !p.title.isEmpty && !p.description.isEmpty) = true :=
  ⟨rfl, rfl, rfl⟩

/-- C1: for every payload that passes ContactMessage validation, the handler
overwrites received_at with the current server-side UTC time `now`
(discarding any client-supplied value in `data`), invokes the storage insert
exactly once with collection name "contactmessage" and exactly that document,
and returns the success object with status ok and the storage identifier
returned by the insert. -/
theorem spec_c1_contact_success
    (f : String → ContactMessage → Except String String) (now : Nat)
    (payload : Payload) (data : ContactMessage) (i : String)
    (hv : contactMessageValidate payload = Except.ok data)
    (hf : f "contactmessage" { data with received_at := some now } = Except.ok i) :
    submit_contact (DbConfig.configured f) now payload =
      (ContactResult.ok i, [("contactmessage", { data with received_at := some now })]) := by
  simp [submit_contact, hv, hf]

theorem spec_c1_contact_success_witness :
    submit_contact (DbConfig.configured (fun _ _ => Except.ok "abc123")) 42
        [("name", JsonValue.str "Ada"), ("email", JsonValue.str "a@example.com"),
         ("message", JsonValue.str "hello there"), ("received_at", JsonValue.datetime 999)] =
      (ContactResult.ok "abc123",
       [("contactmessage",
         { name := "Ada", email := "a@example.com", subject := none,
           message := "hello there", tags := none, received_at := some 42 })]) :=
  spec_c1_contact_success (fun _ _ => Except.ok "abc123") 42 _
    { name := "Ada", email := "a@example.com", subject := none,
      message := "hello there", tags := none, received_at := some 999 } "abc123" rfl rfl

/-- C2: for every payload that fails ContactMessage validation, the handler
answers 422 with the structured list of per-field validation errors, and the
storage insert is never invoked (the invocation trace is empty). -/
theorem spec_c2_contact_validation_failure
    (f : String → ContactMessage → Except String String) (now : Nat)
    (payload : Payload) (errs : List FieldError)
    (hv : contactMessageValidate payload = Except.error errs) :
    submit_contact (DbConfig.configured f) now payload =
      (ContactResult.httpError 422 (ErrorDetail.fieldErrors errs), []) := by
  simp [submit_contact, hv]

theorem spec_c2_contact_validation_failure_witness :
    submit_contact (DbConfig.configured (fun _ _ => Except.ok "x")) 0
        [("name", JsonValue.str "A"), ("email", JsonValue.str "notanemail"),
         ("message", JsonValue.str "hello there")] =
      (ContactResult.httpError 422 (ErrorDetail.fieldErrors
        [{ loc := "email", msg := "value is not a valid email address" }]), []) :=
  spec_c2_contact_validation_failure (fun _ _ => Except.ok "x") 0 _
    [{ loc := "email", msg := "value is not a valid email address" }] rfl

/-- C3: when the optional startup import failed (handles left None), every
POST /api/contact call answers 500 with detail "Database not configured"
whatever the payload, and GET /test still produces a full report (the
handler is total, hence a 200 response) whose backend field says running
and whose database field describes the degraded state, in each of the three
degraded situations the diagnostic handler distinguishes. -/
theorem spec_c3_unconfigured (now : Nat) (payload : Payload) (u n : Bool) (e : String) :
    submit_contact DbConfig.unconfigured now payload =
      (ContactResult.httpError 500 (ErrorDetail.str "Database not configured"), []) ∧
    (test_database ImportDbResult.importErr u n).backend = "✅ Running" ∧
    (test_database ImportDbResult.importErr u n).database =
      "❌ Database module not found (run enable-database first)" ∧
    (test_database (ImportDbResult.ok none) u n).backend = "✅ Running" ∧
    (test_database (ImportDbResult.ok none) u n).database =
      "⚠️  Available but not initialized" ∧
    (test_database (ImportDbResult.otherErr e) u n).backend = "✅ Running" ∧
    (test_database (ImportDbResult.otherErr e) u n).database =
      "❌ Error: " ++ e.take 50 :=
  ⟨rfl, rfl, rfl, rfl, rfl, rfl, rfl⟩

set_option maxRecDepth 10000 in
/-- C4 counterexample: the claim says the 500 detail on a storage insert
failure is a truncated form of the underlying error message, but
src/main.py line 86 passes `str(e)` whole.  With an underlying message of
60 characters the returned detail is the full 60-character message, which
differs from its 50-character truncation. -/
theorem spec_c4_counterexample :
    (submit_contact (DbConfig.configured (fun _ _ =>
        Except.error "012345678901234567890123456789012345678901234567890123456789")) 0
        [("name", JsonValue.str "A"), ("email", JsonValue.str "a@example.com"),
         ("message", JsonValue.str "hello there")]).1 =
      ContactResult.httpError 500 (ErrorDetail.str
        "012345678901234567890123456789012345678901234567890123456789") ∧
    ("012345678901234567890123456789012345678901234567890123456789" : String).length = 60 ∧
    ("012345678901234567890123456789012345678901234567890123456789" : String).take 50 ≠
      "012345678901234567890123456789012345678901234567890123456789" := by
  refine ⟨rfl, rfl, ?_⟩
  decide

/-- C4 amended: for every storage insertion failure on POST /api/contact,
the handler returns 500 whose detail is the full underlying error message,
not truncated. -/
theorem spec_c4_contact_insert_failure
    (f : String → ContactMessage → Except String String) (now : Nat)
    (payload : Payload) (data : ContactMessage) (e : String)
    (hv : contactMessageValidate payload = Except.ok data)
    (hf : f "contactmessage" { data with received_at := some now } = Except.error e) :
    submit_contact (DbConfig.configured f) now payload =
      (ContactResult.httpError 500 (ErrorDetail.str e),
       [("contactmessage", { data with received_at := some now })]) := by
  simp [submit_contact, hv, hf]

theorem spec_c4_contact_insert_failure_witness :
    submit_contact (DbConfig.configured (fun _ _ => Except.error "boom")) 7
        [("name", JsonValue.str "A"), ("email", JsonValue.str "a@example.com"),
         ("message", JsonValue.str "hello there")] =
      (ContactResult.httpError 500 (ErrorDetail.str "boom"),
       [("contactmessage",
         { name := "A", email := "a@example.com", subject := none,
           message := "hello there", tags := none, received_at := some 7 })]) :=
  spec_c4_contact_insert_failure (fun _ _ => Except.error "boom") 7 _
    { name := "A", email := "a@example.com", subject := none,
      message := "hello there", tags := none, received_at := none } "boom" rfl rfl

/-- C5: the collections field of every GET /test response has at most 10
entries: on a successful probe it is exactly the first 10 of the returned
collection names, and when the probe raises, the collections field is left
empty while the database field is overwritten with the error message
truncated to 50 characters. -/
theorem spec_c5_collections_capped (imp : ImportDbResult) (u n : Bool)
    (nm : Option String) (e : String) (cols : List String) :
    (test_database imp u n).collections.length ≤ 10 ∧
    (test_database (ImportDbResult.ok (some
        { name := nm, list_collection_names := Except.ok cols })) u n).collections =
      cols.take 10 ∧
    (test_database (ImportDbResult.ok (some
        { name := nm, list_collection_names := Except.error e })) u n).database =
      "⚠️  Connected but Error: " ++ e.take 50 := by
  refine ⟨?_, rfl, rfl⟩
  rcases imp with db | _ | e2
  · rcases db with _ | ⟨nm2, lc⟩
    · simp [test_database]
    · rcases lc with err | cols2
      · simp [test_database]
      · simp [test_database, List.length_take]
  · simp [test_database]
  · simp [test_database]

/-- C6: with the other required fields valid, ContactMessage validation of
the message field succeeds exactly for lengths from 5 to 5000 characters
(so a 5-character message is accepted); moreover for every payload whose
message field is a string shorter than 5 characters, validation fails. -/
theorem spec_c6_message_length (m : String) (p : Payload) :
    ((contactMessageValidate (stdPayload m)).isOk = true ↔
      5 ≤ m.length ∧ m.length ≤ 5000) ∧
    (List.lookup "message" p = some (JsonValue.str m) → m.length < 5 →
      (contactMessageValidate p).isOk = false) := by
  constructor
  · rw [validate_isOk]
    have hn : (checkName (stdPayload m)).isOk = true := rfl
    have he : (checkEmail (stdPayload m)).isOk = true := rfl
    have hs : (checkSubject (stdPayload m)).isOk = true := rfl
    have ht : (checkTags (stdPayload m)).isOk = true := rfl
    have hr : (checkReceivedAt (stdPayload m)).isOk = true := rfl
    rw [hn, he, hs, ht, hr]
    have hm : checkMessage (stdPayload m) =
        (if m.length < 5 then
          Except.error { loc := "message", msg := "String should have at least 5 characters" }
        else if m.length > 5000 then
          Except.error { loc := "message", msg := "String should have at most 5000 characters" }
        else Except.ok m) := rfl
    rw [hm]
    by_cases h5 : m.length < 5 <;> by_cases h50 : m.length > 5000 <;>
      simp [h5, h50, Except.isOk, Except.toBool] <;> omega
  · intro hlook hlen
    rw [validate_isOk]
    have hm : (checkMessage p).isOk = false := by
      simp [checkMessage, hlook, hlen, Except.isOk, Except.toBool]
    rw [hm]
    simp

theorem spec_c6_message_length_witness :
    (contactMessageValidate (stdPayload "hello")).isOk = true ∧
    (contactMessageValidate (stdPayload "hi")).isOk = false :=
  ⟨(spec_c6_message_length "hello" []).1.mpr (by decide),
   (spec_c6_message_length "hi" [("message", JsonValue.str "hi")]).2 rfl (by decide)⟩

/-- C7: the database_url and database_name fields of every GET /test
response are determined solely by the presence of the DATABASE_URL and
DATABASE_NAME environment variables, whatever the import outcome and
storage handle state: the handle-derived intermediate values are
unconditionally overwritten before the report is returned. -/
theorem spec_c7_env_markers (imp : ImportDbResult) (u n : Bool) :
    (test_database imp u n).database_url =
      some (if u then "✅ Set" else "❌ Not Set") ∧
    (test_database imp u n).database_name =
      some (if n then "✅ Set" else "❌ Not Set") :=
  ⟨rfl, rfl⟩

/-- A lookup is unchanged by appending a binding for a different key. -/
theorem lookup_append_not_key (key k : String) (v : JsonValue) (p : Payload)
    (h : key ≠ k) :
    List.lookup key (p ++ [(k, v)]) = List.lookup key p := by
  induction p with
  | nil =>
      have hkk : (key == k) = false := beq_eq_false_iff_ne.mpr h
      simp [List.lookup, hkk]
  | cons hd tl ih =>
      rcases hd with ⟨a, b⟩
      cases hka : (key == a) with
      | true => simp [List.lookup, hka]
      | false => simp [List.lookup, hka, ih]

/-- C9: ContactMessage validation ignores extra keys: adding a binding for
any key outside the six schema fields leaves the validation outcome, and
hence the constructed ContactMessage document, unchanged. -/
theorem spec_c9_extra_keys_ignored (p : Payload) (k : String) (v : JsonValue)
    (hk : k ∉ ["name", "email", "subject", "message", "tags", "received_at"]) :
    contactMessageValidate (p ++ [(k, v)]) = contactMessageValidate p := by
  simp only [List.mem_cons, List.not_mem_nil, or_false, not_or] at hk
  obtain ⟨h1, h2, h3, h4, h5, h6⟩ := hk
  have l1 := lookup_append_not_key "name" k v p (Ne.symm h1)
  have l2 := lookup_append_not_key "email" k v p (Ne.symm h2)
  have l3 := lookup_append_not_key "subject" k v p (Ne.symm h3)
  have l4 := lookup_append_not_key "message" k v p (Ne.symm h4)
  have l5 := lookup_append_not_key "tags" k v p (Ne.symm h5)
  have l6 := lookup_append_not_key "received_at" k v p (Ne.symm h6)
  simp only [contactMessageValidate, checkName, checkEmail, checkSubject,
    checkMessage, checkTags, checkReceivedAt, l1, l2, l3, l4, l5, l6]

theorem spec_c9_extra_keys_ignored_witness :
    contactMessageValidate
        ([("name", JsonValue.str "A"), ("email", JsonValue.str "a@example.com"),
          ("message", JsonValue.str "hello there")] ++
         [("company", JsonValue.str "ACME")]) =
      contactMessageValidate
        [("name", JsonValue.str "A"), ("email", JsonValue.str "a@example.com"),
         ("message", JsonValue.str "hello there")] :=
  spec_c9_extra_keys_ignored _ "company" (JsonValue.str "ACME") (by decide)

/-- C10: when the storage handle exists but the list-collections probe
raises, the GET /test report still says connection_status Connected and
keeps an empty collections list, while only the database field carries the
error text: a Connected status coexists with a failed probe. -/
theorem spec_c10_connected_with_failed_probe (nm : Option String) (e : String)
    (u n : Bool) :
    (test_database (ImportDbResult.ok (some
        { name := nm, list_collection_names := Except.error e })) u n).connection_status =
      "Connected" ∧
    (test_database (ImportDbResult.ok (some
        { name := nm, list_collection_names := Except.error e })) u n).collections = [] ∧
    (test_database (ImportDbResult.ok (some
        { name := nm, list_collection_names := Except.error e })) u n).database =
      "⚠️  Connected but Error: " ++ e.take 50 :=
  ⟨rfl, rfl, rfl⟩

end Portfolio
